import Mathlib

/-!
Verification development for the spin extension layer:
(a) the type-erased, handle-indexed host-component registry
    (`crates/core/src/host_component.rs`), and
(b) the asynchronous per-component stdio output multiplexer
    (`crates/trigger/src/stdio.rs`).

Shallow embedding conventions:
* Rust `TypeId` values are modelled as `Nat` keys; distinct Rust types carry
  distinct keys (a hypothesis where it matters).
* The type-erased `Box<dyn Any + Send>` state values are modelled by a type
  parameter `Val`; the checked downcast in `get_or_insert` always succeeds for
  handles of the producing registry, so it is dropped from the model.
* `HashMap<TypeId, Handle>` is modelled as an association list consulted with
  `List.lookup`; insertion order is irrelevant because a key is never inserted
  twice.
* Operations that index a `Vec` (and hence may panic on out-of-bounds) return
  `Option`, with `none` standing for the panic.
* `get_or_insert_any` is instrumented with a `built : Bool` field recording
  whether `build_data` was invoked during the call, so claims about lazy
  construction ("construction happens at most once") are statable.
-/

namespace SpinCore

/-- A host component: its Rust runtime type identity (`TypeId::of::<HC>()`,
modelled as a `Nat` key) together with its `build_data` constructor result.
`add_to_linker` is consumed, not reimplemented (out of scope per the spec),
and is modelled as infallible. -/
structure HostComponent (Val : Type) where
  typeId : Nat
  build_data : Val
  deriving DecidableEq

/-- Rust `impl<HC: HostComponent> HostComponent for Arc<HC>`: the wrapper delegates
`build_data` to the inner component (`(**self).build_data()`) and shares its
`Data` type, but has its own runtime type identity `TypeId::of::<Arc<HC>>()`,
passed here as `arcTypeId`. -/
def arcHostComponent {Val : Type} (hc : HostComponent Val) (arcTypeId : Nat) :
    HostComponent Val :=
  { typeId := arcTypeId, build_data := hc.build_data }

/-- Struct `HostComponentsBuilder`: the `TypeId -> handle` map and the ordered
capability list. -/
structure HostComponentsBuilder (Val : Type) where
  handles : List (Nat × Nat)
  host_components : List (HostComponent Val)
  deriving DecidableEq

/-- The empty `HostComponentsBuilder` (its `Default` impl). -/
def HostComponentsBuilder.empty (Val : Type) : HostComponentsBuilder Val :=
  ⟨[], []⟩

/-- Method `HostComponentsBuilder::add_host_component`: fails if a component with the
same `TypeId` was already registered; otherwise the new handle is the current
length of the capability list, the `TypeId -> handle` entry is recorded and the
component appended. The builder is returned alongside the result, so the error
case exposes that the builder is left unchanged. -/
def add_host_component {Val : Type} (b : HostComponentsBuilder Val)
    (hc : HostComponent Val) :
    Except String Nat × HostComponentsBuilder Val :=
  if (b.handles.lookup hc.typeId).isSome then
    (Except.error ("already have a host component of type " ++ toString hc.typeId), b)
  else
    (Except.ok b.host_components.length,
      { handles := (hc.typeId, b.host_components.length) :: b.handles,
        host_components := b.host_components ++ [hc] })

/-- Struct `HostComponents`: the built, immutable registry. -/
structure HostComponents (Val : Type) where
  handles : List (Nat × Nat)
  host_components : List (HostComponent Val)
  deriving DecidableEq

/-- Method `HostComponentsBuilder::build`: freezes the map and the capability list. -/
def HostComponentsBuilder.build {Val : Type} (b : HostComponentsBuilder Val) :
    HostComponents Val :=
  ⟨b.handles, b.host_components⟩

/-- Struct `HostComponentsData`: one `Option` slot per registered capability plus the
shared capability list. -/
structure HostComponentsData (Val : Type) where
  data : List (Option Val)
  host_components : List (HostComponent Val)
  deriving DecidableEq

/-- Method `HostComponents::new_data`: fills `data` with `None`, one slot per
registered capability, and captures the shared capability list. -/
def new_data {Val : Type} (r : HostComponents Val) : HostComponentsData Val :=
  { data := List.replicate r.host_components.length none,
    host_components := r.host_components }

/-- Method `HostComponentsData::set`: `self.data[handle] = Some(data)`. Indexing a
`Vec` panics out of bounds; the panic is modelled as `none`. -/
def set {Val : Type} (d : HostComponentsData Val) (handle : Nat) (v : Val) :
    Option (HostComponentsData Val) :=
  if handle < d.data.length then
    some { d with data := d.data.set handle (some v) }
  else
    none

/-- Result of `get_or_insert_any`: the value referenced, the store afterwards,
and (instrumentation) whether `build_data` was invoked during the call. -/
structure GetOrInsertResult (Val : Type) where
  value : Val
  store : HostComponentsData Val
  built : Bool
  deriving DecidableEq

/-- Method `HostComponentsData::get_or_insert_any`:
`self.data[idx].get_or_insert_with(|| self.host_components[idx].build_data_box())`.
The closure runs only when the slot is `None`. Out-of-bounds indexing (a
foreign handle) panics, modelled as `none`. `get_or_insert` is this plus an
always-successful downcast. -/
def get_or_insert_any {Val : Type} (d : HostComponentsData Val) (handle : Nat) :
    Option (GetOrInsertResult Val) :=
  match d.data.get? handle with
  | none => none
  | some (some v) => some ⟨v, d, false⟩
  | some none =>
    match d.host_components.get? handle with
    | none => none
    | some hc =>
      some ⟨hc.build_data,
        { d with data := d.data.set handle (some hc.build_data) }, true⟩

end SpinCore

namespace SpinStdio

/-!
Embedding of `crates/trigger/src/stdio.rs` (the asynchronous
`ComponentStdioWriter`, its `AsyncWrite` state machine, and the follow-list
validation of `StdioLoggingTriggerHooks`).

Conventions:
* Byte buffers are `List Nat` (UTF-8 bytes of the strings involved).
* Each underlying `poll_write` on a sink is driven by a `SinkEvent` oracle:
  `accept n` stands for `Poll::Ready(Ok(n))` (clamped to the offered length,
  per the `AsyncWrite` contract), `fail` for `Poll::Ready(Err(_))`. An
  exhausted oracle stands for `Poll::Pending`; since the writer's state
  persists across polls and the caller re-polls with the same buffer, the
  whole (possibly multi-poll) write operation is one run of the loop over the
  event list. The loop consumes events in the deterministic order the state
  machine polls the sinks: the durable sink in `File` state, the shared
  diagnostic stream (stderr) in `Follow` state.
* The outcome records the chronological `trace` of chunks written to the two
  sinks, so ordering properties ("sink before mirror") are statable.
-/

/-- Rust `enum FollowComponents` from `stdio.rs`; the `HashSet<String>` of the
`Named` variant is modelled as a list in the set's iteration order (which is
arbitrary for a Rust `HashSet`). -/
inductive FollowComponents where
  | noneV
  | named (names : List String)
  | allV
  deriving DecidableEq

/-- Method `FollowComponents::should_follow`. -/
def should_follow (fc : FollowComponents) (component_id : String) : Bool :=
  match fc with
  | FollowComponents.noneV => false
  | FollowComponents.allV => true
  | FollowComponents.named ids => ids.contains component_id

/-- Function `bullet_list`: one `"  - item"` line per item, joined with newlines, in
the order the items are iterated. -/
def bullet_list (items : List String) : String :=
  String.intercalate "\n" (items.map (fun item => "  - " ++ item))

/-- Method `StdioLoggingTriggerHooks::validate_follows`: for a `Named` follow set,
compute the names not among the application's component ids (in the name
set's iteration order); succeed if there are none, otherwise fail with the
message listing the unknown names and the declared component ids as bullet
lists (each in its set's iteration order — the code applies no sort).
`noneV`/`allV` always succeed. -/
def validate_follows (fc : FollowComponents) (componentIds : List String) :
    Except String Unit :=
  match fc with
  | FollowComponents.named names =>
    if (names.filter (fun n => !(componentIds.contains n))).isEmpty then
      Except.ok ()
    else
      Except.error
        ("The following component(s) specified in --follow do not exist in the application:\n"
          ++ bullet_list (names.filter (fun n => !(componentIds.contains n)))
          ++ "\nThe following components exist:\n"
          ++ bullet_list componentIds)
  | _ => Except.ok ()

/-- Rust `enum ComponentStdioWriterState`: `File`, or `Follow(start..stop)` with
the remaining byte range still to be mirrored. -/
inductive ComponentStdioWriterState where
  | file
  | follow (start stop : Nat)
  deriving DecidableEq

/-- Readiness oracle entry for one underlying sink `poll_write`. -/
inductive SinkEvent where
  | accept (n : Nat)
  | fail
  deriving DecidableEq

/-- One chunk landing on a sink: the durable log file or the shared
diagnostic stream (stderr). -/
inductive SinkWrite where
  | toFile (bytes : List Nat)
  | toDiag (bytes : List Nat)
  deriving DecidableEq

/-- Result of one write operation: `Poll::Ready(Ok(n))`, `Poll::Ready(Err)`,
or still pending (oracle exhausted). -/
inductive WriteResult where
  | ok (n : Nat)
  | ioError
  | pending
  deriving DecidableEq

/-- Outcome of driving `ComponentStdioWriter::poll_write` to completion (or
error/pending): the returned result, the writer state left behind, and the
chronological trace of chunks written to the sinks. -/
structure WriteOutcome where
  result : WriteResult
  state : ComponentStdioWriterState
  trace : List SinkWrite
  deriving DecidableEq

/-- The loop of `ComponentStdioWriter::poll_write` over `prefixed_buf` (the
labeled payload) with the original buffer length `bufLen`:
in `File` state, one write to the durable sink of the whole labeled payload;
on `Ok(written)`, if `follow` transition to `Follow(0..written)`, else return
`Ready(Ok(written))`. In `Follow(start..stop)` state, write
`prefixed_buf[start..stop]` to the diagnostic stream; on `Ok(written)`, if
`start + written >= stop` reset to `File` and return `Ready(Ok(buf.len()))`,
else continue with `Follow(start+written..stop)`. Errors surface
immediately. -/
def poll_write_loop (follow : Bool) (prefixed : List Nat) (bufLen : Nat) :
    ComponentStdioWriterState → List SinkEvent → WriteOutcome
  | st, [] => ⟨WriteResult.pending, st, []⟩
  | ComponentStdioWriterState.file, SinkEvent.fail :: _ =>
    ⟨WriteResult.ioError, ComponentStdioWriterState.file, []⟩
  | ComponentStdioWriterState.file, SinkEvent.accept n :: evs =>
    let written := min n prefixed.length
    if follow then
      let rest := poll_write_loop follow prefixed bufLen
        (ComponentStdioWriterState.follow 0 written) evs
      ⟨rest.result, rest.state,
        SinkWrite.toFile (prefixed.take written) :: rest.trace⟩
    else
      ⟨WriteResult.ok written, ComponentStdioWriterState.file,
        [SinkWrite.toFile (prefixed.take written)]⟩
  | ComponentStdioWriterState.follow a b, SinkEvent.fail :: _ =>
    ⟨WriteResult.ioError, ComponentStdioWriterState.follow a b, []⟩
  | ComponentStdioWriterState.follow a b, SinkEvent.accept n :: evs =>
    let offered := (prefixed.take b).drop a
    let written := min n offered.length
    if b ≤ a + written then
      ⟨WriteResult.ok bufLen, ComponentStdioWriterState.file,
        [SinkWrite.toDiag (offered.take written)]⟩
    else
      let rest := poll_write_loop follow prefixed bufLen
        (ComponentStdioWriterState.follow (a + written) b) evs
      ⟨rest.result, rest.state,
        SinkWrite.toDiag (offered.take written) :: rest.trace⟩

/-- The fields of `ComponentStdioWriter` the state machine reads: the follow
flag, the current state, and the component id (as UTF-8 bytes). -/
structure ComponentStdioWriter where
  follow : Bool
  state : ComponentStdioWriterState
  component_id : List Nat
  deriving DecidableEq

/-- The label `format!` of the component id as bytes: `'['` (91), the id, `']'` (93),
`' '` (32). -/
def labelBytes (component_id : List Nat) : List Nat :=
  91 :: component_id ++ [93, 32]

/-- One `poll_write` operation of `ComponentStdioWriter`: prepend the label to
`buf` to form the labeled payload and run the state machine loop. -/
def poll_write (w : ComponentStdioWriter) (buf : List Nat)
    (evs : List SinkEvent) : WriteOutcome :=
  poll_write_loop w.follow (labelBytes w.component_id ++ buf) buf.length
    w.state evs

/-- The single sink operation a `poll_flush`/`poll_shutdown` performs. -/
inductive SinkAction where
  | flushFile
  | flushDiag
  | shutdownFile
  deriving DecidableEq

/-- Method `ComponentStdioWriter::poll_flush`: matches only on the state — `File`
flushes the durable sink, `Follow(_)` flushes the shared diagnostic stream.
The `follow` flag is not consulted. -/
def poll_flush (w : ComponentStdioWriter) : SinkAction :=
  match w.state with
  | ComponentStdioWriterState.file => SinkAction.flushFile
  | ComponentStdioWriterState.follow _ _ => SinkAction.flushDiag

/-- Method `ComponentStdioWriter::poll_shutdown`: `File` shuts the durable sink
down, `Follow(_)` flushes (not closes) the shared diagnostic stream. The
`follow` flag is not consulted. -/
def poll_shutdown (w : ComponentStdioWriter) : SinkAction :=
  match w.state with
  | ComponentStdioWriterState.file => SinkAction.shutdownFile
  | ComponentStdioWriterState.follow _ _ => SinkAction.flushDiag

/-- All bytes a trace sends to the durable sink, in order. -/
def traceFileBytes : List SinkWrite → List Nat
  | [] => []
  | SinkWrite.toFile bs :: t => bs ++ traceFileBytes t
  | SinkWrite.toDiag _ :: t => traceFileBytes t

/-- All bytes a trace sends to the shared diagnostic stream, in order. -/
def traceDiagBytes : List SinkWrite → List Nat
  | [] => []
  | SinkWrite.toFile _ :: t => traceDiagBytes t
  | SinkWrite.toDiag bs :: t => bs ++ traceDiagBytes t

end SpinStdio

namespace SpinCore

/-- Characterization of a successful `add_host_component`: the type key was
not yet registered, the handle is the pre-registration capability count, and
the new builder records the key and appends the component. -/
theorem add_host_component_ok {Val : Type} {b : HostComponentsBuilder Val}
    {hc : HostComponent Val} {h : Nat} {b' : HostComponentsBuilder Val}
    (hadd : add_host_component b hc = (Except.ok h, b')) :
    (b.handles.lookup hc.typeId).isSome = false ∧
    h = b.host_components.length ∧
    b' = ⟨(hc.typeId, b.host_components.length) :: b.handles,
          b.host_components ++ [hc]⟩ := by
  unfold add_host_component at hadd
  by_cases hk : (b.handles.lookup hc.typeId).isSome = true
  · rw [if_pos hk] at hadd
    exact absurd (congrArg Prod.fst hadd) (by simp)
  · rw [if_neg hk] at hadd
    rw [Prod.mk.injEq] at hadd
    obtain ⟨h1, h2⟩ := hadd
    exact ⟨Bool.eq_false_iff.mpr hk, (Except.ok.inj h1).symm, h2.symm⟩

/-- A populated slot is returned as-is: no construction, store unchanged. -/
theorem get_or_insert_any_populated {Val : Type} {d : HostComponentsData Val}
    {h : Nat} {v : Val} (hslot : d.data.get? h = some (some v)) :
    get_or_insert_any d h = some ⟨v, d, false⟩ := by
  unfold get_or_insert_any
  rw [hslot]

/-- An empty slot backed by capability `hc` is filled with `hc.build_data`
and the constructor runs (`built = true`). -/
theorem get_or_insert_any_empty {Val : Type} {d : HostComponentsData Val}
    {h : Nat} {hc : HostComponent Val} (h1 : d.data.get? h = some none)
    (h2 : d.host_components.get? h = some hc) :
    get_or_insert_any d h =
      some ⟨hc.build_data,
        { d with data := d.data.set h (some hc.build_data) }, true⟩ := by
  unfold get_or_insert_any
  rw [h1, h2]

/-- C3: for every handle obtained by registering a capability into a builder,
and a fresh state store created from the built registry, the first
`get_or_insert` on that handle constructs and stores the capability's default
state via `build_data` (`built = true`), and a subsequent `get_or_insert`
without an intervening `set` returns the same stored value with the store
unchanged and without invoking the constructor (`built = false`); since the
store is unchanged by that call, the same equation applies to every further
call, so default construction happens at most once per slot per instance. -/
theorem c3_lazy_default_construction {Val : Type}
    (b : HostComponentsBuilder Val) (hc : HostComponent Val) (h : Nat)
    (b' : HostComponentsBuilder Val)
    (hadd : add_host_component b hc = (Except.ok h, b')) :
    ∃ st1 : HostComponentsData Val,
      get_or_insert_any (new_data b'.build) h =
        some ⟨hc.build_data, st1, true⟩ ∧
      get_or_insert_any st1 h = some ⟨hc.build_data, st1, false⟩ := by
  obtain ⟨-, hh, hb'⟩ := add_host_component_ok hadd
  subst hh
  subst hb'
  have hlen : (b.host_components ++ [hc]).length =
      b.host_components.length + 1 := by simp
  have hfresh : (new_data (HostComponentsBuilder.build
      ⟨(hc.typeId, b.host_components.length) :: b.handles,
        b.host_components ++ [hc]⟩) : HostComponentsData Val) =
      ⟨List.replicate (b.host_components.length + 1) none,
        b.host_components ++ [hc]⟩ := by
    simp [new_data, HostComponentsBuilder.build, hlen]
  have h1 : (List.replicate (b.host_components.length + 1)
      (none : Option Val)).get? b.host_components.length = some none := by
    rw [List.get?_eq_getElem?, List.getElem?_replicate]
    simp
  have h2 : (b.host_components ++ [hc]).get? b.host_components.length =
      some hc := by
    rw [List.get?_eq_getElem?]
    exact List.getElem?_concat_length _ _
  refine ⟨⟨(List.replicate (b.host_components.length + 1)
      (none : Option Val)).set b.host_components.length
        (some hc.build_data), b.host_components ++ [hc]⟩, ?_, ?_⟩
  · rw [hfresh]
    exact get_or_insert_any_empty h1 h2
  · refine get_or_insert_any_populated ?_
    rw [List.get?_eq_getElem?]
    refine List.getElem?_set_self ?_
    simp

/-- C3 witness: a concrete run with one registered capability
(`typeId = 0`, default state `42`). -/
theorem c3_lazy_default_construction_witness :
    ∃ st1 : HostComponentsData Nat,
      get_or_insert_any (new_data (HostComponentsBuilder.build
        ⟨[(0, 0)], [⟨0, 42⟩]⟩)) 0 = some ⟨42, st1, true⟩ ∧
      get_or_insert_any st1 0 = some ⟨42, st1, false⟩ :=
  c3_lazy_default_construction (HostComponentsBuilder.empty Nat) ⟨0, 42⟩ 0
    ⟨[(0, 0)], [⟨0, 42⟩]⟩ rfl

/-- C4: registering a capability whose runtime type key is not yet present
succeeds, returns the handle `b.host_components.length` — distinct from every
handle previously returned (all of which are recorded in `b.handles` and are
below the capability count) — and re-establishes that bound for the new
builder; registering a capability whose type key is already present fails
with the duplicate-capability error and leaves the builder (in particular its
capability list) unchanged. -/
theorem c4_register_fresh_or_duplicate {Val : Type}
    (b : HostComponentsBuilder Val) (hc : HostComponent Val)
    (hinv : ∀ p ∈ b.handles, p.2 < b.host_components.length) :
    (b.handles.lookup hc.typeId = none →
      add_host_component b hc =
        (Except.ok b.host_components.length,
          ⟨(hc.typeId, b.host_components.length) :: b.handles,
            b.host_components ++ [hc]⟩) ∧
      (∀ p ∈ b.handles, p.2 ≠ b.host_components.length) ∧
      (∀ p ∈ ((hc.typeId, b.host_components.length) :: b.handles),
        p.2 < (b.host_components ++ [hc]).length)) ∧
    ((b.handles.lookup hc.typeId).isSome = true →
      add_host_component b hc =
        (Except.error
          ("already have a host component of type " ++ toString hc.typeId),
          b)) := by
  constructor
  · intro hnone
    refine ⟨?_, ?_, ?_⟩
    · unfold add_host_component
      rw [hnone]
      simp
    · intro p hp
      exact Nat.ne_of_lt (hinv p hp)
    · intro p hp
      rcases List.mem_cons.mp hp with hp | hp
      · subst hp
        simp
      · have := hinv p hp
        simp only [List.length_append, List.length_singleton]
        omega
  · intro hsome
    unfold add_host_component
    rw [if_pos hsome]

/-- C4 witness: on the empty builder registration of `typeId = 7` succeeds
with handle `0`; repeating the same type key on the resulting builder fails
with the duplicate error and returns the builder unchanged. -/
theorem c4_register_fresh_or_duplicate_witness :
    add_host_component (HostComponentsBuilder.empty Nat) ⟨7, 99⟩ =
      (Except.ok 0, ⟨[(7, 0)], [⟨7, 99⟩]⟩) ∧
    add_host_component (⟨[(7, 0)], [⟨7, 99⟩]⟩ : HostComponentsBuilder Nat)
        ⟨7, 5⟩ =
      (Except.error
        ("already have a host component of type " ++ toString (7 : Nat)),
        ⟨[(7, 0)], [⟨7, 99⟩]⟩) :=
  ⟨((c4_register_fresh_or_duplicate (HostComponentsBuilder.empty Nat) ⟨7, 99⟩
      (by simp [HostComponentsBuilder.empty])).1 (by rfl)).1,
    (c4_register_fresh_or_duplicate (⟨[(7, 0)], [⟨7, 99⟩]⟩ :
        HostComponentsBuilder Nat) ⟨7, 5⟩ (by simp)).2 (by rfl)⟩

/-- C8: `set` followed by `get_or_insert` on the same handle returns the
value that was set, with the store unchanged and the default-state
constructor not invoked (`built = false`). -/
theorem c8_set_bypasses_default {Val : Type} (st : HostComponentsData Val)
    (h : Nat) (v : Val) (st' : HostComponentsData Val)
    (hset : set st h v = some st') :
    get_or_insert_any st' h = some ⟨v, st', false⟩ := by
  unfold set at hset
  by_cases hb : h < st.data.length
  · rw [if_pos hb] at hset
    obtain rfl := Option.some.inj hset
    refine get_or_insert_any_populated ?_
    rw [List.get?_eq_getElem?]
    exact List.getElem?_set_self hb
  · rw [if_neg hb] at hset
    exact absurd hset (by simp)

/-- C8 witness: a one-slot store; `set 0 5` then `get_or_insert 0` returns
`5` without construction. -/
theorem c8_set_bypasses_default_witness :
    get_or_insert_any (⟨[some 5], [⟨0, 42⟩]⟩ : HostComponentsData Nat) 0 =
      some ⟨5, ⟨[some 5], [⟨0, 42⟩]⟩, false⟩ :=
  c8_set_bypasses_default ⟨[none], [⟨0, 42⟩]⟩ 0 5 ⟨[some 5], [⟨0, 42⟩]⟩ rfl

/-- C9: a state store created by `new_data` has one slot per registered
capability, all unpopulated (`replicate … none`), and both `set` and
`get_or_insert` preserve the slot count and the captured capability list:
slots are only filled in place, never added or removed. -/
theorem c9_slot_count_invariant {Val : Type} (r : HostComponents Val)
    (st : HostComponentsData Val) (h : Nat) (v : Val) :
    (new_data r).data = List.replicate r.host_components.length none ∧
    (∀ st', set st h v = some st' →
      st'.data.length = st.data.length ∧
      st'.host_components = st.host_components) ∧
    (∀ res, get_or_insert_any st h = some res →
      res.store.data.length = st.data.length ∧
      res.store.host_components = st.host_components) := by
  refine ⟨rfl, ?_, ?_⟩
  · intro st' hset
    unfold set at hset
    by_cases hb : h < st.data.length
    · rw [if_pos hb] at hset
      obtain rfl := Option.some.inj hset
      simp
    · rw [if_neg hb] at hset
      exact absurd hset (by simp)
  · intro res hres
    unfold get_or_insert_any at hres
    cases hslot : st.data.get? h with
    | none => rw [hslot] at hres; exact absurd hres (by simp)
    | some o =>
      cases o with
      | some v' =>
        rw [hslot] at hres
        obtain rfl := Option.some.inj hres
        exact ⟨rfl, rfl⟩
      | none =>
        rw [hslot] at hres
        cases hcomp : st.host_components.get? h with
        | none => rw [hcomp] at hres; exact absurd hres (by simp)
        | some hc =>
          rw [hcomp] at hres
          obtain rfl := Option.some.inj hres
          simp

/-- C9 witness: a one-capability registry and its fresh store; `set` and a
constructing `get_or_insert` both keep the slot count at 1 and the
capability list intact. -/
theorem c9_slot_count_invariant_witness :
    (new_data (⟨[(0, 0)], [⟨0, 3⟩]⟩ : HostComponents Nat)).data =
      List.replicate 1 none ∧
    ((⟨[some 9], [⟨0, 3⟩]⟩ : HostComponentsData Nat).data.length =
        (⟨[none], [⟨0, 3⟩]⟩ : HostComponentsData Nat).data.length ∧
      (⟨[some 9], [⟨0, 3⟩]⟩ : HostComponentsData Nat).host_components =
        (⟨[none], [⟨0, 3⟩]⟩ : HostComponentsData Nat).host_components) ∧
    ((⟨[some 3], [⟨0, 3⟩]⟩ : HostComponentsData Nat).data.length =
        (⟨[none], [⟨0, 3⟩]⟩ : HostComponentsData Nat).data.length ∧
      (⟨[some 3], [⟨0, 3⟩]⟩ : HostComponentsData Nat).host_components =
        (⟨[none], [⟨0, 3⟩]⟩ : HostComponentsData Nat).host_components) :=
  ⟨(c9_slot_count_invariant (⟨[(0, 0)], [⟨0, 3⟩]⟩ : HostComponents Nat)
      ⟨[none], [⟨0, 3⟩]⟩ 0 9).1,
    (c9_slot_count_invariant (⟨[(0, 0)], [⟨0, 3⟩]⟩ : HostComponents Nat)
      ⟨[none], [⟨0, 3⟩]⟩ 0 9).2.1 ⟨[some 9], [⟨0, 3⟩]⟩ rfl,
    (c9_slot_count_invariant (⟨[(0, 0)], [⟨0, 3⟩]⟩ : HostComponents Nat)
      ⟨[none], [⟨0, 3⟩]⟩ 0 9).2.2 ⟨3, ⟨[some 3], [⟨0, 3⟩]⟩, true⟩ rfl⟩

/-- C10: capability identity is the runtime type key of the exact registered
wrapper type: with the `Arc` wrapper's key distinct from the inner
capability's key, registering the wrapper and then the inner capability into
the same (empty) builder both succeed, yield distinct handles, and the
wrapper's `build_data` delegates to the inner capability's (shared
per-instance state type and value). -/
theorem c10_arc_wrapper_distinct_identity {Val : Type}
    (hc : HostComponent Val) (arcTypeId : Nat)
    (hne : arcTypeId ≠ hc.typeId) :
    ∃ (b1 b2 : HostComponentsBuilder Val) (h1 h2 : Nat),
      add_host_component (HostComponentsBuilder.empty Val)
          (arcHostComponent hc arcTypeId) = (Except.ok h1, b1) ∧
      add_host_component b1 hc = (Except.ok h2, b2) ∧
      h1 ≠ h2 ∧
      (arcHostComponent hc arcTypeId).build_data = hc.build_data := by
  refine ⟨⟨[(arcTypeId, 0)], [arcHostComponent hc arcTypeId]⟩,
    ⟨[(hc.typeId, 1), (arcTypeId, 0)],
      [arcHostComponent hc arcTypeId, hc]⟩, 0, 1, ?_, ?_, by simp, rfl⟩
  · rfl
  · unfold add_host_component
    have hbeq : (hc.typeId == arcTypeId) = false :=
      beq_eq_false_iff_ne.mpr (Ne.symm hne)
    have hlook : (([(arcTypeId, 0)] : List (Nat × Nat)).lookup hc.typeId)
        = none := by
      simp [List.lookup, hbeq]
    rw [hlook]
    rfl

/-- C10 witness: inner capability `typeId = 0` with state `7`, wrapper key
`1`: handles `0` and `1` are returned and differ. -/
theorem c10_arc_wrapper_distinct_identity_witness :
    ∃ (b1 b2 : HostComponentsBuilder Nat) (h1 h2 : Nat),
      add_host_component (HostComponentsBuilder.empty Nat)
          (arcHostComponent ⟨0, 7⟩ 1) = (Except.ok h1, b1) ∧
      add_host_component b1 (⟨0, 7⟩ : HostComponent Nat) =
        (Except.ok h2, b2) ∧
      h1 ≠ h2 ∧
      (arcHostComponent (⟨0, 7⟩ : HostComponent Nat) 1).build_data =
        (⟨0, 7⟩ : HostComponent Nat).build_data :=
  c10_arc_wrapper_distinct_identity ⟨0, 7⟩ 1 (by decide)

end SpinCore

namespace SpinStdio

/-- C1: evaluation at the failing input. With following enabled, component id
"web" and input b"hi" (labeled payload b"[web] hi", 8 bytes), when the
durable sink accepts only 3 bytes and the shared diagnostic stream then
accepts 3, the write operation completes successfully (`Ok`) having written
only b"[we" to the durable sink — the remaining 5 labeled-payload bytes are
never written there and no retry occurs — while those same 3 bytes are
mirrored; so the full labeled payload is not written to the durable sink in
its entirety before mirroring, contrary to the claim. -/
theorem c1_partial_sink_write_not_retried :
    poll_write ⟨true, ComponentStdioWriterState.file, [119, 101, 98]⟩
        [104, 105] [SinkEvent.accept 3, SinkEvent.accept 3] =
      ⟨WriteResult.ok 2, ComponentStdioWriterState.file,
        [SinkWrite.toFile [91, 119, 101], SinkWrite.toDiag [91, 119, 101]]⟩ ∧
    traceFileBytes [SinkWrite.toFile [91, 119, 101],
        SinkWrite.toDiag [91, 119, 101]] ≠
      labelBytes [119, 101, 98] ++ [104, 105] := by
  constructor
  · rfl
  · decide

/-- C2: evaluation at the failing input. With following disabled, component
id "web" and input b"hi" (original length 2), when the durable sink accepts
all 8 bytes of the labeled payload b"[web] hi", the write reports `Ok(8)` —
the length of the labeled payload, not the length 2 of the original
unlabeled buffer claimed. -/
theorem c2_reports_labeled_not_original_length :
    (poll_write ⟨false, ComponentStdioWriterState.file, [119, 101, 98]⟩
        [104, 105] [SinkEvent.accept 8]).result = WriteResult.ok 8 ∧
    ([104, 105] : List Nat).length = 2 ∧ (8 : Nat) ≠ 2 := by
  refine ⟨rfl, rfl, by decide⟩

/-- C5 counterexample: the error message's bullet lists are not sorted. With
the name set iterating as ["c"] and the declared component set {"a","b"}
iterating as ["b","a"] (a possible Rust `HashSet` iteration order), the
message lists the valid ids as "  - b" before "  - a", although ["b","a"] is
not sorted ("a" < "b"); the code applies no sort, so the claimed "sorted"
bullet lists do not hold. -/
theorem c5_bullet_lists_not_sorted :
    validate_follows (FollowComponents.named ["c"]) ["b", "a"] =
      Except.error
        ("The following component(s) specified in --follow do not exist in the application:\n  - c\nThe following components exist:\n  - b\n  - a") ∧
    ¬ List.Sorted (· ≤ ·) (["b", "a"] : List String) := by
  constructor
  · rfl
  · intro hsort
    have h1 := (List.sorted_cons.mp hsort).1 "a" (by simp)
    have h2 : ("a" : String) < "b" := by
      rw [String.lt_iff_toList_lt]
      decide
    exact absurd h1 (not_le.mpr h2)

/-- C5 (amended): at application-load time with a named follow selection,
validation succeeds exactly when every named component id is among the
application's declared component ids; otherwise it fails with an error
message enumerating both the unknown names and the full list of valid
component ids, each as a bulleted list in the iteration order of the
underlying hash sets (not sorted). -/
theorem c5_validate_follows_named (names componentIds : List String) :
    (validate_follows (FollowComponents.named names) componentIds =
        Except.ok () ↔ ∀ n ∈ names, n ∈ componentIds) ∧
    ((¬ ∀ n ∈ names, n ∈ componentIds) →
      validate_follows (FollowComponents.named names) componentIds =
        Except.error
          ("The following component(s) specified in --follow do not exist in the application:\n"
            ++ bullet_list (names.filter (fun n => !(componentIds.contains n)))
            ++ "\nThe following components exist:\n"
            ++ bullet_list componentIds)) := by
  have hkey : (names.filter (fun n => !(componentIds.contains n))).isEmpty
      = true ↔ ∀ n ∈ names, n ∈ componentIds := by
    simp [List.isEmpty_iff, List.filter_eq_nil_iff]
  by_cases hempty :
      (names.filter (fun n => !(componentIds.contains n))).isEmpty = true
  · have hval : validate_follows (FollowComponents.named names) componentIds
        = Except.ok () := by
      simp only [validate_follows]
      rw [if_pos hempty]
    exact ⟨⟨fun _ => hkey.mp hempty, fun _ => hval⟩,
      fun hnot => absurd (hkey.mp hempty) hnot⟩
  · have hval : validate_follows (FollowComponents.named names) componentIds
        = Except.error
          ("The following component(s) specified in --follow do not exist in the application:\n"
            ++ bullet_list (names.filter (fun n => !(componentIds.contains n)))
            ++ "\nThe following components exist:\n"
            ++ bullet_list componentIds) := by
      simp only [validate_follows]
      rw [if_neg hempty]
    refine ⟨⟨fun hok => ?_, fun hall => absurd (hkey.mpr hall) hempty⟩,
      fun _ => hval⟩
    rw [hval] at hok
    exact absurd hok (by simp)

/-- C5 witness: selecting named follow {"a"} against declared components
iterated as ["b","a"] succeeds; selecting {"c"} against ["b"] fails with the
enumerating message. -/
theorem c5_validate_follows_named_witness :
    validate_follows (FollowComponents.named ["a"]) ["b", "a"] =
      Except.ok () ∧
    validate_follows (FollowComponents.named ["c"]) ["b"] =
      Except.error
        ("The following component(s) specified in --follow do not exist in the application:\n"
          ++ bullet_list ((["c"] : List String).filter
              (fun n => !((["b"] : List String).contains n)))
          ++ "\nThe following components exist:\n"
          ++ bullet_list ["b"]) :=
  ⟨(c5_validate_follows_named ["a"] ["b", "a"]).1.mpr (by decide),
    (c5_validate_follows_named ["c"] ["b"]).2 (by decide)⟩

/-- C6: with following disabled (component id "web"), when the durable sink
accepts the full labeled payload (any readiness `accept n` with `8 ≤ n`, 8
being the labeled length of b"[web] hi"), the write call succeeds, the
durable sink receives exactly the bytes b"[web] hi", and nothing is written
to the shared diagnostic stream. -/
theorem c6_no_follow_label_to_sink_only (n : Nat) (evs : List SinkEvent)
    (hn : 8 ≤ n) :
    poll_write ⟨false, ComponentStdioWriterState.file, [119, 101, 98]⟩
        [104, 105] (SinkEvent.accept n :: evs) =
      ⟨WriteResult.ok 8, ComponentStdioWriterState.file,
        [SinkWrite.toFile [91, 119, 101, 98, 93, 32, 104, 105]]⟩ ∧
    traceFileBytes (poll_write
        ⟨false, ComponentStdioWriterState.file, [119, 101, 98]⟩
        [104, 105] (SinkEvent.accept n :: evs)).trace =
      labelBytes [119, 101, 98] ++ [104, 105] ∧
    traceDiagBytes (poll_write
        ⟨false, ComponentStdioWriterState.file, [119, 101, 98]⟩
        [104, 105] (SinkEvent.accept n :: evs)).trace = [] := by
  have hmin : min n ((labelBytes [119, 101, 98] ++ [104, 105] :
      List Nat)).length = 8 := by
    rw [show (labelBytes [119, 101, 98] ++ [104, 105] :
      List Nat).length = 8 from rfl]
    exact Nat.min_eq_right hn
  have h1 : poll_write ⟨false, ComponentStdioWriterState.file,
      [119, 101, 98]⟩ [104, 105] (SinkEvent.accept n :: evs) =
      ⟨WriteResult.ok 8, ComponentStdioWriterState.file,
        [SinkWrite.toFile [91, 119, 101, 98, 93, 32, 104, 105]]⟩ := by
    simp only [poll_write, poll_write_loop, hmin]
    rfl
  refine ⟨h1, ?_, ?_⟩
  · rw [h1]
    decide
  · rw [h1]
    decide

/-- C6 witness: the concrete run where the sink accepts exactly 8 bytes. -/
theorem c6_no_follow_label_to_sink_only_witness :
    poll_write ⟨false, ComponentStdioWriterState.file, [119, 101, 98]⟩
        [104, 105] [SinkEvent.accept 8] =
      ⟨WriteResult.ok 8, ComponentStdioWriterState.file,
        [SinkWrite.toFile [91, 119, 101, 98, 93, 32, 104, 105]]⟩ ∧
    traceFileBytes (poll_write
        ⟨false, ComponentStdioWriterState.file, [119, 101, 98]⟩
        [104, 105] [SinkEvent.accept 8]).trace =
      labelBytes [119, 101, 98] ++ [104, 105] ∧
    traceDiagBytes (poll_write
        ⟨false, ComponentStdioWriterState.file, [119, 101, 98]⟩
        [104, 105] [SinkEvent.accept 8]).trace = [] :=
  c6_no_follow_label_to_sink_only 8 [] (by decide)

/-- C7 counterexample: a multiplexer with following enabled whose state
machine is in `File` state: `poll_flush` flushes only the durable sink — the
shared diagnostic stream is not flushed, although the claim says that with
following enabled the diagnostic stream is also flushed (the code consults
only the state, never the follow flag). -/
theorem c7_flush_ignores_follow_flag :
    poll_flush ⟨true, ComponentStdioWriterState.file, [119, 101, 98]⟩ =
      SinkAction.flushFile ∧
    SinkAction.flushFile ≠ SinkAction.flushDiag := by
  exact ⟨rfl, by decide⟩

/-- C7 (amended): flush and shutdown operate on exactly the sink active in
the state machine, regardless of the follow flag: in `File` state, flush
flushes the durable sink and shutdown closes it; in `Follow` state, both
flush (shutdown does not close) the shared diagnostic stream. -/
theorem c7_flush_shutdown_target_active_sink (w : ComponentStdioWriter) :
    (w.state = ComponentStdioWriterState.file →
      poll_flush w = SinkAction.flushFile ∧
      poll_shutdown w = SinkAction.shutdownFile) ∧
    (∀ a b, w.state = ComponentStdioWriterState.follow a b →
      poll_flush w = SinkAction.flushDiag ∧
      poll_shutdown w = SinkAction.flushDiag) := by
  constructor
  · intro hst
    unfold poll_flush poll_shutdown
    rw [hst]
    exact ⟨rfl, rfl⟩
  · intro a b hst
    unfold poll_flush poll_shutdown
    rw [hst]
    exact ⟨rfl, rfl⟩

/-- C7 witness: a following writer in `File` state flushes the durable sink
and a writer mid-mirror flushes the diagnostic stream. -/
theorem c7_flush_shutdown_target_active_sink_witness :
    poll_flush ⟨true, ComponentStdioWriterState.file, []⟩ =
      SinkAction.flushFile ∧
    poll_shutdown ⟨true, ComponentStdioWriterState.follow 0 3, []⟩ =
      SinkAction.flushDiag :=
  ⟨((c7_flush_shutdown_target_active_sink
      ⟨true, ComponentStdioWriterState.file, []⟩).1 rfl).1,
    ((c7_flush_shutdown_target_active_sink
      ⟨true, ComponentStdioWriterState.follow 0 3, []⟩).2 0 3 rfl).2⟩

end SpinStdio
